import Mathlib

/-!
Shallow embedding of the opensnitch-tui core (rule synthesis, disposition
handling, alert queue, configuration validation) and proofs about it.

Machine integers of the source (u32, u64, i32) are modelled as Nat / Int;
none of the embedded operations can overflow in the source's value ranges,
so no modular truncation is inserted.
-/

set_option autoImplicit false
set_option maxRecDepth 8192

namespace OpensnitchTui

/-! ## constants.rs -/

/-- Operand types to label firewall rules' data blob (constants.rs). -/
inductive Operand where
  | ProcessId
  | ProcessPath
  | ProcessCmd
  | ProcessEnv
  | ProcessHashMd5
  | ProcessHashSha1
  | UserId
  | IfaceOut
  | IfaceIn
  | SrcIp
  | SrcPort
  | DstIp
  | DstHost
  | DstPort
  | DstNetwork
  | SrcNetwork
  | Protocol
  | List
  | ListDomains
  | ListDomainsRegexp
  | ListIps
  | ListNets
deriving DecidableEq

/-- Operand enum as string for the daemon (constants.rs `Operand::get_str`). -/
def Operand.get_str : Operand → String
  | .ProcessId => "process.id"
  | .ProcessPath => "process.path"
  | .ProcessCmd => "process.command"
  | .ProcessEnv => "process.env."
  | .ProcessHashMd5 => "process.hash.md5"
  | .ProcessHashSha1 => "process.hash.sha1"
  | .UserId => "user.id"
  | .IfaceOut => "iface.out"
  | .IfaceIn => "iface.in"
  | .SrcIp => "source.ip"
  | .SrcPort => "source.port"
  | .DstIp => "dest.ip"
  | .DstHost => "dest.host"
  | .DstPort => "dest.port"
  | .DstNetwork => "dest.network"
  | .SrcNetwork => "source.network"
  | .Protocol => "protocol"
  | .List => "list"
  | .ListDomains => "lists.domains"
  | .ListDomainsRegexp => "lists.domains_regexp"
  | .ListIps => "lists.ips"
  | .ListNets => "lists.nets"

/-- Firewall rule type hint (constants.rs `RuleType`). -/
inductive RuleType where
  | List
  | Lists
  | Simple
  | Regexp
  | Network
deriving DecidableEq

/-- RuleType enum as string for the daemon (constants.rs `RuleType::get_str`). -/
def RuleType.get_str : RuleType → String
  | .List => "list"
  | .Lists => "lists"
  | .Simple => "simple"
  | .Regexp => "regexp"
  | .Network => "network"

/-- Error type for a bad option provided to an enum constructor (constants.rs `BadOption`). -/
structure BadOption where
  input : String
deriving DecidableEq

/-- Firewall rule actions (constants.rs `Action`). -/
inductive Action where
  | Allow
  | Deny
  | Reject
  | Accept
  | Drop
  | Jump
  | Redirect
  | Return
  | TProxy
  | Snat
  | Dnat
  | Masquerade
  | Queue
  | Log
  | Stop
deriving DecidableEq

/-- Validates an input action string and returns the enum variant
    (constants.rs `Action::new`); the Rust match on string literals is an
    equality-test chain. -/
def Action.new (s : String) : Except BadOption Action :=
  if s = "allow" then .ok .Allow
  else if s = "deny" then .ok .Deny
  else if s = "reject" then .ok .Reject
  else if s = "accept" then .ok .Accept
  else if s = "drop" then .ok .Drop
  else if s = "jump" then .ok .Jump
  else if s = "redirect" then .ok .Redirect
  else if s = "return" then .ok .Return
  else if s = "tproxy" then .ok .TProxy
  else if s = "snat" then .ok .Snat
  else if s = "dnat" then .ok .Dnat
  else if s = "masquerade" then .ok .Masquerade
  else if s = "queue" then .ok .Queue
  else if s = "log" then .ok .Log
  else if s = "stop" then .ok .Stop
  else .error ⟨s⟩

/-- Action enum as string for the daemon (constants.rs `Action::get_str`). -/
def Action.get_str : Action → String
  | .Allow => "allow"
  | .Deny => "deny"
  | .Reject => "reject"
  | .Accept => "accept"
  | .Drop => "drop"
  | .Jump => "jump"
  | .Redirect => "redirect"
  | .Return => "return"
  | .TProxy => "tproxy"
  | .Snat => "snat"
  | .Dnat => "dnat"
  | .Masquerade => "masquerade"
  | .Queue => "queue"
  | .Log => "log"
  | .Stop => "stop"

/-- Durations for firewall rules to be applicable (constants.rs `Duration`). -/
inductive Duration where
  | UntilRestart
  | Always
  | Once
  | Hours12
  | Hours1
  | Minutes30
  | Minutes15
  | Minutes5
  | Seconds30
deriving DecidableEq

/-- Validates an input duration string and returns the enum variant
    (constants.rs `Duration::new`). -/
def Duration.new (s : String) : Except BadOption Duration :=
  if s = "until restart" then .ok .UntilRestart
  else if s = "always" then .ok .Always
  else if s = "once" then .ok .Once
  else if s = "12h" then .ok .Hours12
  else if s = "1h" then .ok .Hours1
  else if s = "30m" then .ok .Minutes30
  else if s = "15m" then .ok .Minutes15
  else if s = "5m" then .ok .Minutes5
  else if s = "30s" then .ok .Seconds30
  else .error ⟨s⟩

/-- Duration enum as string for the daemon (constants.rs `Duration::get_str`). -/
def Duration.get_str : Duration → String
  | .UntilRestart => "until restart"
  | .Always => "always"
  | .Once => "once"
  | .Hours12 => "12h"
  | .Hours1 => "1h"
  | .Minutes30 => "30m"
  | .Minutes15 => "15m"
  | .Minutes5 => "5m"
  | .Seconds30 => "30s"

/-- Default action values (constants.rs `DefaultAction`). -/
inductive DefaultAction where
  | Allow
  | Deny
  | Reject
deriving DecidableEq

/-- Validates an input default-action string and returns the enum variant
    (constants.rs `DefaultAction::new`). -/
def DefaultAction.new (s : String) : Except BadOption DefaultAction :=
  if s = "allow" then .ok .Allow
  else if s = "deny" then .ok .Deny
  else if s = "reject" then .ok .Reject
  else .error ⟨s⟩

/-- DefaultAction enum as string for the daemon (constants.rs `DefaultAction::get_str`). -/
def DefaultAction.get_str : DefaultAction → String
  | .Allow => "allow"
  | .Deny => "deny"
  | .Reject => "reject"

/-! ## alert.rs enum decoding -/

namespace alert

/-- Alert priority (alert.rs `Priority`). -/
inductive Priority where
  | Low
  | Medium
  | High
deriving DecidableEq

/-- Decode a wire i32 into a Priority (alert.rs `Priority::new`).
    The i32 is modelled as Int. -/
def Priority.new (v : Int) : Priority :=
  if v = 0 then .Low
  else if v = 1 then .Medium
  else .High

/-- Alert type (alert.rs `Type`; `Type` is reserved in Lean, hence `AType`). -/
inductive AType where
  | Error
  | Warning
  | Info
deriving DecidableEq

/-- Decode a wire i32 into an alert type (alert.rs `Type::new`). -/
def AType.new (v : Int) : AType :=
  if v = 0 then .Error
  else if v = 1 then .Warning
  else .Info

/-- Alert source (alert.rs `What`). -/
inductive What where
  | Generic
  | ProcMonitor
  | Firewall
  | Connection
  | Rule
  | Netlink
  | KernelEvent
deriving DecidableEq

/-- Decode a wire i32 into an alert source (alert.rs `What::new`). -/
def What.new (v : Int) : What :=
  if v = 0 then .Generic
  else if v = 1 then .ProcMonitor
  else if v = 2 then .Firewall
  else if v = 3 then .Connection
  else if v = 4 then .Rule
  else if v = 5 then .Netlink
  else if v = 6 then .KernelEvent
  else .Generic

end alert

/-! ## Protocol data model

The `pb` module is protobuf-generated code (not a repository source file); its
shapes are fixed by the wire schema the spec gives in its data-model section
and by every use site in app.rs / server.rs / operator_util.rs. -/

/-- Connection descriptor (pb::Connection), as used by app.rs and its tests.
    String maps are modelled as association lists. -/
structure Connection where
  protocol : String
  src_ip : String
  src_port : Nat
  dst_ip : String
  dst_host : String
  dst_port : Nat
  user_id : Nat
  process_id : Nat
  process_path : String
  process_cwd : String
  process_args : List String
  process_env : List (String × String)
  process_checksums : List (String × String)
  process_tree : List String
deriving DecidableEq

/-- Firewall-rule match predicate (pb::Operator): type, operand, data,
    sensitive flag and a list of child operators. -/
inductive Operator where
  | mk (type operand data : String) (sensitive : Bool) (list : List Operator)

/-- The `type` field of an Operator. -/
def Operator.type : Operator → String
  | .mk t _ _ _ _ => t

/-- The `operand` field of an Operator. -/
def Operator.operand : Operator → String
  | .mk _ o _ _ _ => o

/-- The `data` field of an Operator. -/
def Operator.data : Operator → String
  | .mk _ _ d _ _ => d

/-- The `sensitive` field of an Operator. -/
def Operator.sensitive : Operator → Bool
  | .mk _ _ _ s _ => s

/-- The `list` field of an Operator. -/
def Operator.list : Operator → List Operator
  | .mk _ _ _ _ l => l

/-- Firewall rule (pb::Rule) as constructed by `App::make_rule`. -/
structure Rule where
  created : Nat
  name : String
  description : String
  enabled : Bool
  precedence : Bool
  nolog : Bool
  action : String
  duration : String
  operator : Option Operator

/-- Event carrying a trapped connection and its expiry deadline
    (event.rs `ConnectionEvent`, whose two fields are fixed by every use in
    app.rs and server.rs). Timestamps are modelled as whole seconds. -/
structure ConnectionEvent where
  connection : Connection
  expiry_ts : Nat
deriving DecidableEq

/-! ## operator_util.rs -/

/-- Simple operator matching a user id (operator_util.rs `match_user_id`). -/
def match_user_id (uid : Nat) : Operator :=
  .mk RuleType.Simple.get_str Operand.UserId.get_str (toString uid) false []

/-- Simple operator matching a process path (operator_util.rs `match_proc_path`). -/
def match_proc_path (ppath : String) : Operator :=
  .mk RuleType.Simple.get_str Operand.ProcessPath.get_str ppath false []

/-- Simple operator matching a destination ip (operator_util.rs `match_dst_ip`). -/
def match_dst_ip (ip : String) : Operator :=
  .mk RuleType.Simple.get_str Operand.DstIp.get_str ip false []

/-- Simple operator matching a destination port (operator_util.rs `match_dst_port`). -/
def match_dst_port (port : Nat) : Operator :=
  .mk RuleType.Simple.get_str Operand.DstPort.get_str (toString port) false []

/-- Simple operator matching an l4 protocol (operator_util.rs `match_protocol`). -/
def match_protocol (protocol : String) : Operator :=
  .mk RuleType.Simple.get_str Operand.Protocol.get_str protocol false []

/-- Modelled from the spec: `operator_util::match_dst_host` is called by
    `App::make_rule` (app.rs line 372) but its definition is not among the
    source files; per the spec the non-empty-host case produces a simple
    operator matching `dest.host == dst_host`. -/
def match_dst_host (host : String) : Operator :=
  .mk RuleType.Simple.get_str Operand.DstHost.get_str host false []

/-! ## Alert and application state (alert.rs / app.rs) -/

/-- An ingested alert (alert.rs `Alert`); the timestamp is modelled as whole
    seconds. -/
structure Alert where
  timestamp : Nat
  priority : alert.Priority
  atype : alert.AType
  what : alert.What
  msg : String
deriving DecidableEq

/-- The fields of app.rs `App` that the disposition / alert-queue machinery
    reads or writes; the front of the VecDeque is the head of the list. -/
structure AppState where
  current_alerts : List Alert
  alert_list_render_offset : Nat
  current_connection : Option ConnectionEvent
deriving DecidableEq

/-- The values `App::new` gives the modelled fields: empty alert queue,
    zero render offset, no pending connection (app.rs lines 144-147). -/
def initialAppState : AppState :=
  { current_alerts := [], alert_list_render_offset := 0, current_connection := none }

/-- Update the connection holder with the latest inbound event
    (app.rs `App::update_connection`). -/
def update_connection (s : AppState) (evt : ConnectionEvent) : AppState :=
  { s with current_connection := some evt }

/-- Clear the connection holder (app.rs `App::clear_connection`). -/
def clear_connection (s : AppState) : AppState :=
  { s with current_connection := none }

/-- Handle a tick (app.rs `App::tick`): clear the pending connection if it
    expired, then evict the front alert if it is at least 60 seconds old,
    correcting the render offset when it pointed at the back of the list.
    `now` stands for `SystemTime::now()`; `duration_since` succeeds exactly
    when `now` is not before the alert's timestamp.
    Returns the new state and whether meaningful change occurred. -/
def tick (now : Nat) (s : AppState) : AppState × Bool :=
  let p1 : AppState × Bool :=
    match s.current_connection with
    | some conn =>
      if conn.expiry_ts ≤ now then (clear_connection s, true) else (s, false)
    | none => (s, false)
  let s1 := p1.1
  match s1.current_alerts with
  | [] => (s1, p1.2)
  | a :: rest =>
    if a.timestamp ≤ now ∧ 60 ≤ now - a.timestamp then
      let off :=
        if s1.alert_list_render_offset = s1.current_alerts.length - 1 then
          s1.alert_list_render_offset - 1
        else s1.alert_list_render_offset
      ({ s1 with current_alerts := rest, alert_list_render_offset := off }, true)
    else (s1, p1.2)

/-- Whether `tick` at `now` finds the pending connection expired
    (the first branch of app.rs `App::tick`). -/
def connExpired (now : Nat) (s : AppState) : Bool :=
  match s.current_connection with
  | some conn => decide (conn.expiry_ts ≤ now)
  | none => false

/-- Whether `tick` at `now` finds the front alert at least 60 seconds old
    (the eviction branch of app.rs `App::tick`). -/
def frontStale (now : Nat) (s : AppState) : Bool :=
  match s.current_alerts with
  | [] => false
  | a :: _ => decide (a.timestamp ≤ now) && decide (60 ≤ now - a.timestamp)

/-- The run loop's initial `draw_needed` value (app.rs line 179); each tick
    event updates it with `draw_needed |= self.tick()` (app.rs line 182). -/
def initialDrawNeeded : Bool := true

/-- Generate a rule for the current connection (app.rs `App::make_rule`):
    a simple destination-only rule, host-based when a hostname is available,
    ip-based otherwise; returns none when no connection is trapped. -/
def make_rule (s : AppState) (action : Action) (duration : Duration) : Option Rule :=
  match s.current_connection with
  | none => none
  | some ev =>
    let conn := ev.connection
    let dp : Operator × String :=
      if conn.dst_host.isEmpty then (match_dst_ip conn.dst_ip, conn.dst_ip)
      else (match_dst_host conn.dst_host, conn.dst_host)
    let dst_operator := dp.1
    let dst_label := dp.2
    let action_str := action.get_str
    let durationStr := duration.get_str
    some
      { created := 0
        name := action_str ++ "-" ++ dst_label
        description := ""
        enabled := true
        precedence := false
        nolog := false
        action := action_str
        duration := durationStr
        operator := some
          (.mk dst_operator.type dst_operator.operand dst_operator.data false []) }

/-! ## Operator-list JSON serialization

The serde Serialize implementation for pb::Operator lives in serde_impl.rs,
which is not among the source files; the byte-level contract is pinned by the
src test `tests::test_make_rule_has_conn` (app.rs lines 531-537), whose
expected JSON is reproduced below. -/

/-- Lower-case hex digit for a value below 16. -/
def hexDigitChar (n : Nat) : Char :=
  if n < 10 then Char.ofNat (48 + n) else Char.ofNat (87 + n)

/-- Modelled from the spec: serde_json's escaping of one character inside a
    JSON string (serde_impl.rs / serde_json are not among the source files). -/
def escapeJsonChar (c : Char) : String :=
  if c = '"' then "\\\""
  else if c = '\\' then "\\\\"
  else if c = Char.ofNat 8 then "\\b"
  else if c = Char.ofNat 12 then "\\f"
  else if c = '\n' then "\\n"
  else if c = '\r' then "\\r"
  else if c = '\t' then "\\t"
  else if c.toNat < 32 then
    "\\u00" ++ String.mk [hexDigitChar (c.toNat / 16), hexDigitChar (c.toNat % 16)]
  else String.singleton c

/-- Escape every character of a string for a JSON string body. -/
def escapeJson (s : String) : String :=
  String.join (s.data.map escapeJsonChar)

/-- A JSON string literal: quoted, escaped body. -/
def jsonString (s : String) : String :=
  "\"" ++ escapeJson s ++ "\""

mutual

/-- Modelled from the spec: the canonical JSON encoding of one operator with
    the stable field order `type, operand, data, sensitive, list`
    (serde_impl.rs is not among the source files; the bytes are pinned by the
    src test's expected JSON). -/
def serializeOperator : Operator → String
  | .mk t o d s l =>
      "\x7b\"type\":" ++ jsonString t ++ ",\"operand\":" ++ jsonString o ++
      ",\"data\":" ++ jsonString d ++ ",\"sensitive\":" ++
      (if s then "true" else "false") ++ ",\"list\":[" ++ serializeOperatorsSep l ++ "]\x7d"

/-- Comma-separated JSON encodings of a list of operators. -/
def serializeOperatorsSep : List Operator → String
  | [] => ""
  | [op] => serializeOperator op
  | op :: rest => serializeOperator op ++ "," ++ serializeOperatorsSep rest

end

/-- JSON array of operator encodings (serde_json's encoding of a Vec of
    operators). -/
def serializeOperators (l : List Operator) : String :=
  "[" ++ serializeOperatorsSep l ++ "]"

/-- Modelled from the spec: the list-rule synthesis mode conjoins five simple
    operators — user id, process path, destination ip, destination port,
    protocol — in that fixed order, and carries their canonical JSON encoding
    as the list operator's `data` (the synthesis function itself is not among
    the source files; its operator list and bytes are exercised by the src
    test `tests::test_make_rule_has_conn`). -/
def make_list_rule_operator (conn : Connection) : Operator :=
  let ops := [
    match_user_id conn.user_id,
    match_proc_path conn.process_path,
    match_dst_ip conn.dst_ip,
    match_dst_port conn.dst_port,
    match_protocol conn.protocol]
  .mk RuleType.List.get_str Operand.List.get_str (serializeOperators ops) false ops

/-- The fake connection built by the src test helper
    `tests::make_fake_connection` (app.rs lines 488-505). -/
def make_fake_connection : Connection :=
  { protocol := "tcp"
    src_ip := "192.168.0.3"
    src_port := 1337
    dst_ip := "192.128.0.4"
    dst_host := "suspicious.local"
    dst_port := 1338
    user_id := 1000
    process_id := 1339
    process_path := "/usr/bin/hello"
    process_cwd := "/home/spongebob"
    process_args := []
    process_env := []
    process_checksums := []
    process_tree := [] }

/-- The exact operator-list JSON the src test `tests::test_make_rule_has_conn`
    expects for the fake connection (app.rs lines 531-537). -/
def expected_operator_list_json : String :=
  "[\x7b\"type\":\"simple\",\"operand\":\"user.id\",\"data\":\"1000\",\"sensitive\":false,\"list\":[]\x7d,\x7b\"type\":\"simple\",\"operand\":\"process.path\",\"data\":\"/usr/bin/hello\",\"sensitive\":false,\"list\":[]\x7d,\x7b\"type\":\"simple\",\"operand\":\"dest.ip\",\"data\":\"192.128.0.4\",\"sensitive\":false,\"list\":[]\x7d,\x7b\"type\":\"simple\",\"operand\":\"dest.port\",\"data\":\"1338\",\"sensitive\":false,\"list\":[]\x7d,\x7b\"type\":\"simple\",\"operand\":\"protocol\",\"data\":\"tcp\",\"sensitive\":false,\"list\":[]\x7d]"

/-! ## server.rs: AskRule request handling -/

/-- gRPC status codes that `ask_rule` can produce, plus the one the spec
    expected (deadline_exceeded). -/
inductive StatusCode where
  | Ok
  | Internal
  | DeadlineExceeded
deriving DecidableEq

/-- A gRPC error status: code plus message (tonic::Status). -/
structure GrpcStatus where
  code : StatusCode
  message : String
deriving DecidableEq

/-- Outcome of `timeout(Duration::from_secs(15), recv_lock.recv()).await` in
    server.rs `ask_rule`: a rule was received, the channel was closed
    (recv returned None), or the timeout elapsed. -/
inductive RecvOutcome where
  | received (r : Rule)
  | closed
  | timedOut

/-- The wait bound server.rs `ask_rule` passes to `timeout`
    (server.rs line 82): a fixed 15 seconds, independent of the configured
    disposition timeout. -/
def askRuleTimeoutSecs : Nat := 15

/-- The expiry offset server.rs `ask_rule` stamps on the connection event
    (server.rs line 75): also a fixed 15 seconds. -/
def askRuleExpiryOffsetSecs : Nat := 15

/-- The response mapping of server.rs `ask_rule` (lines 83-89): a received
    rule is returned; a closed channel yields Status::internal
    "sender somehow closed"; an elapsed timeout yields Status::internal
    "No rule created: deadline has elapsed" (tokio's Elapsed displays as
    "deadline has elapsed"). -/
def ask_rule_result : RecvOutcome → Except GrpcStatus Rule
  | .received r => .ok r
  | .closed => .error ⟨.Internal, "sender somehow closed"⟩
  | .timedOut => .error ⟨.Internal, "No rule created: deadline has elapsed"⟩

/-! ## Configuration validation (app.rs `App::new`, cli.rs `setup`) -/

/-- The validation sequence of app.rs `App::new` after bind-address parsing
    (lines 107-127): default action, temporary rule lifetime, then the
    disposition timeout, which is rejected exactly when above 115.
    Bind-address parsing (std SocketAddr / the unix:// path check) precedes
    these checks and is independent of the timeout, so it is not modelled
    here; the theorems instantiate the other arguments with valid values. -/
def appNewValidate (default_action_in : String) (temp_rule_lifetime : String)
    (connection_disposition_timeout_in : Nat) : Except String Unit :=
  match DefaultAction.new default_action_in with
  | .error _ => .error ("Invalid default action: " ++ default_action_in)
  | .ok _ =>
    match Duration.new temp_rule_lifetime with
    | .error _ => .error ("Invalid temporary rule lifetime: " ++ temp_rule_lifetime)
    | .ok _ =>
      if connection_disposition_timeout_in > 115 then
        .error ("Connection disposition timeout " ++
          toString connection_disposition_timeout_in ++ " cannot be over 115")
      else .ok ()

/-- The clap value parser of the `--conn-dispo-timeout` flag
    (cli.rs line 18): `value_parser!(u64).range(1..115)`, i.e. the half-open
    Rust range accepting values v with 1 ≤ v < 115. -/
def cliDispoRangeAccepts (v : Nat) : Bool :=
  decide (1 ≤ v) && decide (v < 115)

/-! ## Helper lemmas about tick -/

/-- Closed form of `tick`: the front alert is popped exactly when stale, the
    render offset is decremented exactly when it pointed at the back of a
    shrinking list, the pending connection is cleared exactly when expired,
    and the change flag is the OR of the two events. -/
lemma tick_eq (now : Nat) (s : AppState) :
    tick now s =
      (⟨(if frontStale now s then s.current_alerts.tail else s.current_alerts),
        (if frontStale now s then
          (if s.alert_list_render_offset = s.current_alerts.length - 1 then
            s.alert_list_render_offset - 1
          else s.alert_list_render_offset)
        else s.alert_list_render_offset),
        (if connExpired now s then none else s.current_connection)⟩,
       (connExpired now s || frontStale now s)) := by
  rcases s with ⟨alerts, off, conn⟩
  cases conn with
  | none =>
    cases alerts with
    | nil => simp [tick, frontStale, connExpired]
    | cons a rest =>
      by_cases h1 : a.timestamp ≤ now
      · by_cases h2 : 60 ≤ now - a.timestamp
        · simp [tick, frontStale, connExpired, h1, h2]
        · simp [tick, frontStale, connExpired, h1, h2]
      · simp [tick, frontStale, connExpired, h1]
  | some c =>
    by_cases hexp : c.expiry_ts ≤ now
    · cases alerts with
      | nil => simp [tick, frontStale, connExpired, clear_connection, hexp]
      | cons a rest =>
        by_cases h1 : a.timestamp ≤ now
        · by_cases h2 : 60 ≤ now - a.timestamp
          · simp [tick, frontStale, connExpired, clear_connection, hexp, h1, h2]
          · simp [tick, frontStale, connExpired, clear_connection, hexp, h1, h2]
        · simp [tick, frontStale, connExpired, clear_connection, hexp, h1]
    · cases alerts with
      | nil => simp [tick, frontStale, connExpired, hexp]
      | cons a rest =>
        by_cases h1 : a.timestamp ≤ now
        · by_cases h2 : 60 ≤ now - a.timestamp
          · simp [tick, frontStale, connExpired, hexp, h1, h2]
          · simp [tick, frontStale, connExpired, hexp, h1, h2]
        · simp [tick, frontStale, connExpired, hexp, h1]

/-- The alert queue after a tick: the tail when the front alert is stale,
    unchanged otherwise. -/
lemma tick_fst_alerts (now : Nat) (s : AppState) :
    (tick now s).1.current_alerts =
      (if frontStale now s then s.current_alerts.tail else s.current_alerts) := by
  rw [tick_eq]

/-- The render offset after a tick: decremented (saturating) exactly when the
    front alert is evicted and the offset pointed at the back of the list. -/
lemma tick_fst_offset (now : Nat) (s : AppState) :
    (tick now s).1.alert_list_render_offset =
      (if frontStale now s then
        (if s.alert_list_render_offset = s.current_alerts.length - 1 then
          s.alert_list_render_offset - 1
        else s.alert_list_render_offset)
      else s.alert_list_render_offset) := by
  rw [tick_eq]

/-- The change flag a tick returns: pending-connection expiry OR front-alert
    eviction. -/
lemma tick_snd (now : Nat) (s : AppState) :
    (tick now s).2 = (connExpired now s || frontStale now s) := by
  rw [tick_eq]

/-! ## Claim theorems -/

/-- C1: for every pending connection descriptor, `make_rule` with an action
    and a duration produces a simple rule with exactly one operator: when
    dst_host is empty the operator has operand "dest.ip" and data dst_ip,
    otherwise operand "dest.host" and data dst_host; in both cases the rule's
    name is "action-label" where label is the matched value. -/
theorem make_rule_simple_dst (s : AppState) (ev : ConnectionEvent)
    (act : Action) (dur : Duration)
    (h : s.current_connection = some ev) :
    make_rule s act dur = some
      { created := 0
        name := act.get_str ++ "-" ++
          (if ev.connection.dst_host.isEmpty then ev.connection.dst_ip
           else ev.connection.dst_host)
        description := ""
        enabled := true
        precedence := false
        nolog := false
        action := act.get_str
        duration := dur.get_str
        operator := some (.mk "simple"
          (if ev.connection.dst_host.isEmpty then "dest.ip" else "dest.host")
          (if ev.connection.dst_host.isEmpty then ev.connection.dst_ip
           else ev.connection.dst_host)
          false []) } := by
  cases hd : ev.connection.dst_host.isEmpty <;>
    simp [make_rule, h, hd, match_dst_ip, match_dst_host, RuleType.get_str,
      Operand.get_str, Operator.type, Operator.operand, Operator.data]

/-- C1 witness: `make_rule` on the test's fake connection (non-empty host)
    yields the host-matching simple rule named allow-suspicious.local. -/
theorem make_rule_simple_dst_witness :
    make_rule ⟨[], 0, some ⟨make_fake_connection, 60⟩⟩ Action.Allow Duration.Once = some
      { created := 0
        name := Action.Allow.get_str ++ "-" ++
          (if make_fake_connection.dst_host.isEmpty then make_fake_connection.dst_ip
           else make_fake_connection.dst_host)
        description := ""
        enabled := true
        precedence := false
        nolog := false
        action := Action.Allow.get_str
        duration := Duration.Once.get_str
        operator := some (.mk "simple"
          (if make_fake_connection.dst_host.isEmpty then "dest.ip" else "dest.host")
          (if make_fake_connection.dst_host.isEmpty then make_fake_connection.dst_ip
           else make_fake_connection.dst_host)
          false []) } :=
  make_rule_simple_dst ⟨[], 0, some ⟨make_fake_connection, 60⟩⟩
    ⟨make_fake_connection, 60⟩ Action.Allow Duration.Once rfl

/-- C2 counterexample: when the 15-second wait for a rule elapses, `ask_rule`
    answers with gRPC status internal, not deadline_exceeded as claimed. -/
theorem ask_rule_timeout_status_counterexample :
    ask_rule_result .timedOut =
      .error ⟨.Internal, "No rule created: deadline has elapsed"⟩ ∧
    StatusCode.Internal ≠ StatusCode.DeadlineExceeded :=
  ⟨rfl, by decide⟩

/-- C2 amended: every AskRule call waits for a decision for at most a fixed
    15-second timeout (not the configured disposition timeout); if no rule is
    delivered in time it fails with gRPC status internal ("No rule created:
    ..."), and if the decision channel is closed it fails with gRPC status
    internal ("sender somehow closed"). -/
theorem ask_rule_status_mapping :
    (∀ r : Rule, ask_rule_result (.received r) = .ok r) ∧
    ask_rule_result .closed = .error ⟨.Internal, "sender somehow closed"⟩ ∧
    ask_rule_result .timedOut =
      .error ⟨.Internal, "No rule created: deadline has elapsed"⟩ ∧
    askRuleTimeoutSecs = 15 :=
  ⟨fun _ => rfl, rfl, rfl, rfl⟩

/-- C3 counterexample: a disposition request arriving while another pending
    disposition is outstanding is not rejected — `update_connection`
    overwrites the pending connection with the new one. -/
theorem ask_rule_pending_overwrite_counterexample :
    (update_connection ⟨[], 0, some ⟨make_fake_connection, 10⟩⟩
      ⟨make_fake_connection, 20⟩).current_connection =
        some ⟨make_fake_connection, 20⟩ ∧
    some (ConnectionEvent.mk make_fake_connection 20) ≠
      some (ConnectionEvent.mk make_fake_connection 10) :=
  ⟨rfl, by decide⟩

/-- C3 amended: a disposition request that arrives while another pending
    disposition is outstanding replaces (overwrites) the existing pending
    connection rather than being rejected with an AlreadyPending-style error;
    after resolution or expiry a new request may be opened the same way. -/
theorem update_connection_overwrites (s : AppState) (evt : ConnectionEvent) :
    (update_connection s evt).current_connection = some evt := rfl

/-- C4: on every tick only the front alert is inspected and it is evicted
    exactly when its age is at least 60 seconds: the queue becomes its tail
    when the front is stale and is unchanged otherwise (so non-front alerts
    are never evicted and at most one alert is evicted per tick); a front
    alert inserted at t0 survives a tick at t0+59 and is gone after a tick
    at t0+61. -/
theorem tick_front_eviction :
    (∀ (now : Nat) (s : AppState),
      (tick now s).1.current_alerts =
        (if frontStale now s then s.current_alerts.tail else s.current_alerts)) ∧
    (∀ (a : Alert) (rest : List Alert) (off : Nat) (c : Option ConnectionEvent),
      (tick (a.timestamp + 59) ⟨a :: rest, off, c⟩).1.current_alerts = a :: rest ∧
      (tick (a.timestamp + 61) ⟨a :: rest, off, c⟩).1.current_alerts = rest) := by
  refine ⟨tick_fst_alerts, ?_⟩
  intro a rest off c
  constructor
  · rw [tick_fst_alerts]
    have h : frontStale (a.timestamp + 59) ⟨a :: rest, off, c⟩ = false := by
      simp [frontStale]
    simp [h]
  · rw [tick_fst_alerts]
    have h : frontStale (a.timestamp + 61) ⟨a :: rest, off, c⟩ = true := by
      simp [frontStale]
    simp [h]

/-- C5: when a tick evicts the front alert, the render offset is decremented
    (saturating at 0) exactly when it pointed at the old last position, the
    offset stays a valid index into the remaining queue (or 0 when it is
    empty), the queue becomes its tail, and the offset's value never
    influences which queue elements remain. -/
theorem tick_render_offset_invariant (now : Nat) (s : AppState)
    (hInv : s.alert_list_render_offset < s.current_alerts.length ∨
      (s.current_alerts = [] ∧ s.alert_list_render_offset = 0))
    (hEvict : frontStale now s = true) :
    ((tick now s).1.alert_list_render_offset =
      (if s.alert_list_render_offset = s.current_alerts.length - 1 then
        s.alert_list_render_offset - 1
      else s.alert_list_render_offset)) ∧
    ((tick now s).1.alert_list_render_offset <
        (tick now s).1.current_alerts.length ∨
      ((tick now s).1.current_alerts = [] ∧
        (tick now s).1.alert_list_render_offset = 0)) ∧
    (tick now s).1.current_alerts = s.current_alerts.tail ∧
    (∀ k : Nat,
      (tick now { s with alert_list_render_offset := k }).1.current_alerts =
        (tick now s).1.current_alerts) := by
  rcases s with ⟨alerts, off, conn⟩
  cases alerts with
  | nil => simp [frontStale] at hEvict
  | cons a rest =>
    have halerts := tick_fst_alerts now ⟨a :: rest, off, conn⟩
    have hoff := tick_fst_offset now ⟨a :: rest, off, conn⟩
    simp only [hEvict, eq_self_iff_true, if_true] at halerts hoff
    refine ⟨hoff, ?_, halerts, ?_⟩
    · rw [halerts, hoff]
      simp only [List.length_cons, List.tail_cons, Nat.add_sub_cancel]
      rcases hInv with h | ⟨h, _⟩
      · simp only [List.length_cons] at h
        by_cases he : off = rest.length
        · rw [if_pos he]
          cases rest with
          | nil =>
            refine Or.inr ⟨rfl, ?_⟩
            simp only [List.length_nil] at he
            omega
          | cons b rest2 =>
            refine Or.inl ?_
            simp only [List.length_cons] at he ⊢
            omega
        · rw [if_neg he]
          exact Or.inl (by omega)
      · exact absurd h (by simp)
    · intro k
      rw [tick_fst_alerts, tick_fst_alerts]
      rfl

/-- C5 witness: a single 100-second-old alert with offset 0 satisfies the
    invariant, gets evicted, and the offset stays 0 on the empty queue. -/
theorem tick_render_offset_invariant_witness :
    (tick 100 ⟨[⟨0, alert.Priority.Low, alert.AType.Info, alert.What.Generic,
      "stale"⟩], 0, none⟩).1.current_alerts = [] ∧
    (tick 100 ⟨[⟨0, alert.Priority.Low, alert.AType.Info, alert.What.Generic,
      "stale"⟩], 0, none⟩).1.alert_list_render_offset = 0 := by
  have h := tick_render_offset_invariant 100
    ⟨[⟨0, alert.Priority.Low, alert.AType.Info, alert.What.Generic, "stale"⟩],
      0, none⟩ (Or.inl (by decide)) (by decide)
  exact ⟨by simpa using h.2.2.1, by simpa using h.1⟩

/-- C6 counterexample: the first tick after startup does not report a change —
    on the freshly constructed state it returns false; the initial render is
    forced by the run loop's draw_needed flag instead. -/
theorem tick_initial_no_change_counterexample :
    (tick 0 initialAppState).2 = false := rfl

/-- C6 amended: tick() returns true iff it cleared an expired pending
    disposition or evicted an alert (the OR of the two); the first render is
    forced because the run loop initializes draw_needed to true and ORs
    tick's result into it, not because the first tick reports a change. -/
theorem tick_change_flag :
    (∀ (now : Nat) (s : AppState),
      (tick now s).2 = (connExpired now s || frontStale now s)) ∧
    (∀ (now : Nat) (s : AppState),
      (initialDrawNeeded || (tick now s).2) = true) := by
  refine ⟨tick_snd, ?_⟩
  intro now s
  simp [initialDrawNeeded]

/-- C7: `App::new` accepts every disposition timeout up to 115 and rejects
    every value above 115 with a startup error, but the CLI's clap range
    `1..115` wrongly excludes 115 itself, contradicting the flag's own help
    text "Max: 115". -/
theorem dispo_timeout_validation :
    (∀ t : Nat, t ≤ 115 → appNewValidate "deny" "12h" t = .ok ()) ∧
    (∀ t : Nat, 115 < t → appNewValidate "deny" "12h" t =
      .error ("Connection disposition timeout " ++ toString t ++
        " cannot be over 115")) ∧
    cliDispoRangeAccepts 115 = false ∧
    cliDispoRangeAccepts 114 = true ∧
    cliDispoRangeAccepts 1 = true ∧
    cliDispoRangeAccepts 0 = false := by
  have h1 : DefaultAction.new "deny" = .ok .Deny := rfl
  have h2 : Duration.new "12h" = .ok .Hours12 := rfl
  refine ⟨?_, ?_, by decide, by decide, by decide, by decide⟩
  · intro t ht
    have hn : ¬ t > 115 := by omega
    simp [appNewValidate, h1, h2, hn]
  · intro t ht
    simp [appNewValidate, h1, h2, ht]

/-- C7 witness: the boundary value 115 passes App construction validation and
    116 is rejected with the startup error. -/
theorem dispo_timeout_validation_witness :
    appNewValidate "deny" "12h" 115 = .ok () ∧
    appNewValidate "deny" "12h" 116 =
      .error ("Connection disposition timeout " ++ toString 116 ++
        " cannot be over 115") :=
  ⟨dispo_timeout_validation.1 115 (by decide),
   dispo_timeout_validation.2.1 116 (by decide)⟩

/-- C8: list-rule synthesis conjoins exactly the five simple operators —
    user id, process path, destination ip, destination port, protocol — in
    that fixed order, and the rule's data field is the canonical JSON of that
    ordered list with per-operator field order type, operand, data,
    sensitive, list; on the test's fake connection the bytes match the src
    test's expected JSON exactly. -/
theorem list_rule_synthesis_stable :
    (∀ conn : Connection,
      (make_list_rule_operator conn).list =
        [match_user_id conn.user_id, match_proc_path conn.process_path,
         match_dst_ip conn.dst_ip, match_dst_port conn.dst_port,
         match_protocol conn.protocol] ∧
      (make_list_rule_operator conn).list.map Operator.type =
        ["simple", "simple", "simple", "simple", "simple"] ∧
      (make_list_rule_operator conn).list.map Operator.operand =
        ["user.id", "process.path", "dest.ip", "dest.port", "protocol"] ∧
      (make_list_rule_operator conn).type = "list" ∧
      (make_list_rule_operator conn).operand = "list" ∧
      (make_list_rule_operator conn).data =
        serializeOperators (make_list_rule_operator conn).list) ∧
    (make_list_rule_operator make_fake_connection).data =
      expected_operator_list_json := by
  refine ⟨fun conn => ⟨rfl, rfl, rfl, rfl, rfl, rfl⟩, ?_⟩
  decide

/-- C9: wire decoding of the alert enums is total with explicit defaults:
    Priority is Low for 0, Medium for 1, High otherwise; the alert type is
    Error for 0, Warning for 1, Info otherwise; What maps 0..6 to the seven
    sources and every other value to Generic. -/
theorem alert_enum_decoding_total :
    ((alert.Priority.new 0 = .Low ∧ alert.Priority.new 1 = .Medium) ∧
      ∀ v : Int, v ≠ 0 → v ≠ 1 → alert.Priority.new v = .High) ∧
    ((alert.AType.new 0 = .Error ∧ alert.AType.new 1 = .Warning) ∧
      ∀ v : Int, v ≠ 0 → v ≠ 1 → alert.AType.new v = .Info) ∧
    ((alert.What.new 0 = .Generic ∧ alert.What.new 1 = .ProcMonitor ∧
        alert.What.new 2 = .Firewall ∧ alert.What.new 3 = .Connection ∧
        alert.What.new 4 = .Rule ∧ alert.What.new 5 = .Netlink ∧
        alert.What.new 6 = .KernelEvent) ∧
      ∀ v : Int, (v < 0 ∨ 6 < v) → alert.What.new v = .Generic) := by
  refine ⟨⟨⟨rfl, rfl⟩, ?_⟩, ⟨⟨rfl, rfl⟩, ?_⟩,
    ⟨⟨rfl, rfl, rfl, rfl, rfl, rfl, rfl⟩, ?_⟩⟩
  · intro v h0 h1
    simp [alert.Priority.new, h0, h1]
  · intro v h0 h1
    simp [alert.AType.new, h0, h1]
  · intro v hv
    have h0 : v ≠ 0 := by omega
    have h1 : v ≠ 1 := by omega
    have h2 : v ≠ 2 := by omega
    have h3 : v ≠ 3 := by omega
    have h4 : v ≠ 4 := by omega
    have h5 : v ≠ 5 := by omega
    have h6 : v ≠ 6 := by omega
    simp [alert.What.new, h0, h1, h2, h3, h4, h5, h6]

/-- C9 witness: out-of-range wire values decode to the explicit defaults. -/
theorem alert_enum_decoding_total_witness :
    alert.Priority.new 7 = .High ∧ alert.AType.new (-3) = .Info ∧
    alert.What.new 99 = .Generic :=
  ⟨alert_enum_decoding_total.1.2 7 (by decide) (by decide),
   alert_enum_decoding_total.2.1.2 (-3) (by decide) (by decide),
   alert_enum_decoding_total.2.2.2 99 (Or.inr (by decide))⟩

/-- C10: the configuration enumerations round-trip — parsing the string of
    any Action, Duration or DefaultAction variant returns that variant — and
    each parser returns a BadOption error carrying the input exactly for
    strings outside its enumerated set. -/
theorem config_enum_roundtrip :
    (∀ a : Action, Action.new a.get_str = .ok a) ∧
    (∀ d : Duration, Duration.new d.get_str = .ok d) ∧
    (∀ d : DefaultAction, DefaultAction.new d.get_str = .ok d) ∧
    (∀ s : String, Action.new s = .error ⟨s⟩ ∨
      ∃ a : Action, Action.new s = .ok a ∧ a.get_str = s) ∧
    (∀ s : String, Duration.new s = .error ⟨s⟩ ∨
      ∃ d : Duration, Duration.new s = .ok d ∧ d.get_str = s) ∧
    (∀ s : String, DefaultAction.new s = .error ⟨s⟩ ∨
      ∃ d : DefaultAction, DefaultAction.new s = .ok d ∧ d.get_str = s) := by
  refine ⟨?_, ?_, ?_, ?_, ?_, ?_⟩
  · intro a
    cases a <;> rfl
  · intro d
    cases d <;> rfl
  · intro d
    cases d <;> rfl
  · intro s
    by_cases h1 : s = "allow"
    · subst h1; exact Or.inr ⟨.Allow, rfl, rfl⟩
    by_cases h2 : s = "deny"
    · subst h2; exact Or.inr ⟨.Deny, rfl, rfl⟩
    by_cases h3 : s = "reject"
    · subst h3; exact Or.inr ⟨.Reject, rfl, rfl⟩
    by_cases h4 : s = "accept"
    · subst h4; exact Or.inr ⟨.Accept, rfl, rfl⟩
    by_cases h5 : s = "drop"
    · subst h5; exact Or.inr ⟨.Drop, rfl, rfl⟩
    by_cases h6 : s = "jump"
    · subst h6; exact Or.inr ⟨.Jump, rfl, rfl⟩
    by_cases h7 : s = "redirect"
    · subst h7; exact Or.inr ⟨.Redirect, rfl, rfl⟩
    by_cases h8 : s = "return"
    · subst h8; exact Or.inr ⟨.Return, rfl, rfl⟩
    by_cases h9 : s = "tproxy"
    · subst h9; exact Or.inr ⟨.TProxy, rfl, rfl⟩
    by_cases h10 : s = "snat"
    · subst h10; exact Or.inr ⟨.Snat, rfl, rfl⟩
    by_cases h11 : s = "dnat"
    · subst h11; exact Or.inr ⟨.Dnat, rfl, rfl⟩
    by_cases h12 : s = "masquerade"
    · subst h12; exact Or.inr ⟨.Masquerade, rfl, rfl⟩
    by_cases h13 : s = "queue"
    · subst h13; exact Or.inr ⟨.Queue, rfl, rfl⟩
    by_cases h14 : s = "log"
    · subst h14; exact Or.inr ⟨.Log, rfl, rfl⟩
    by_cases h15 : s = "stop"
    · subst h15; exact Or.inr ⟨.Stop, rfl, rfl⟩
    refine Or.inl ?_
    unfold Action.new
    rw [if_neg h1, if_neg h2, if_neg h3, if_neg h4, if_neg h5, if_neg h6,
      if_neg h7, if_neg h8, if_neg h9, if_neg h10, if_neg h11, if_neg h12,
      if_neg h13, if_neg h14, if_neg h15]
  · intro s
    by_cases h1 : s = "until restart"
    · subst h1; exact Or.inr ⟨.UntilRestart, rfl, rfl⟩
    by_cases h2 : s = "always"
    · subst h2; exact Or.inr ⟨.Always, rfl, rfl⟩
    by_cases h3 : s = "once"
    · subst h3; exact Or.inr ⟨.Once, rfl, rfl⟩
    by_cases h4 : s = "12h"
    · subst h4; exact Or.inr ⟨.Hours12, rfl, rfl⟩
    by_cases h5 : s = "1h"
    · subst h5; exact Or.inr ⟨.Hours1, rfl, rfl⟩
    by_cases h6 : s = "30m"
    · subst h6; exact Or.inr ⟨.Minutes30, rfl, rfl⟩
    by_cases h7 : s = "15m"
    · subst h7; exact Or.inr ⟨.Minutes15, rfl, rfl⟩
    by_cases h8 : s = "5m"
    · subst h8; exact Or.inr ⟨.Minutes5, rfl, rfl⟩
    by_cases h9 : s = "30s"
    · subst h9; exact Or.inr ⟨.Seconds30, rfl, rfl⟩
    refine Or.inl ?_
    unfold Duration.new
    rw [if_neg h1, if_neg h2, if_neg h3, if_neg h4, if_neg h5, if_neg h6,
      if_neg h7, if_neg h8, if_neg h9]
  · intro s
    by_cases h1 : s = "allow"
    · subst h1; exact Or.inr ⟨.Allow, rfl, rfl⟩
    by_cases h2 : s = "deny"
    · subst h2; exact Or.inr ⟨.Deny, rfl, rfl⟩
    by_cases h3 : s = "reject"
    · subst h3; exact Or.inr ⟨.Reject, rfl, rfl⟩
    refine Or.inl ?_
    unfold DefaultAction.new
    rw [if_neg h1, if_neg h2, if_neg h3]

end OpensnitchTui
